import Mathlib

/-!
Verification of the facial-symmetry analyzer (`src/main.py`).

The scoring pipeline is a short deterministic arithmetic computation over
floating-point values; we model those values as elements of a linear ordered
field (instantiated at `ℚ` for executable checks and at `ℝ` for the geometric
pipeline, whose distances involve square roots).  Python's `round(x, 2)` is
modelled as exact round-half-to-even at two decimal places, Python's documented
rounding mode, on the abstracted exact values.
-/

namespace FacialSymmetry

section Scorer

variable {α : Type*} [LinearOrderedField α] [FloorRing α]

/-- The constant `GOLDEN_RATIO = 1.618` (src/main.py line 30). -/
def goldenRatio : α := 1618 / 1000

/-- Round-half-to-even to an integer: model of Python's builtin `round`
applied to an exact value. -/
def roundHalfEven (q : α) : ℤ :=
  if q - ⌊q⌋ < 1 / 2 then ⌊q⌋
  else if 1 / 2 < q - ⌊q⌋ then ⌊q⌋ + 1
  else if 2 ∣ ⌊q⌋ then ⌊q⌋ else ⌊q⌋ + 1

/-- Model of Python's `round(q, 2)` (src/main.py line 114) on an exact value. -/
def round2 (q : α) : α := (roundHalfEven (q * 100) : α) / 100

/-- Per-ratio deviation (src/main.py line 105):
`min(abs(ratio - GOLDEN_RATIO) / GOLDEN_RATIO, 1.0)`. -/
def ratio_deviation (ratio : α) : α :=
  min (|ratio - goldenRatio| / goldenRatio) 1

/-- `avg_deviation` (src/main.py line 106): `sum(ratio_deviations) / len(ratio_deviations)`
for `ratio_deviations = [min(abs(r - GOLDEN_RATIO)/GOLDEN_RATIO, 1.0) for r in ratios]`. -/
def avg_deviation (ratios : List α) : α :=
  (ratios.map ratio_deviation).sum / ((ratios.map ratio_deviation).length : α)

/-- The unrounded `symmetry_score` (src/main.py line 109):
`max(0.0, 1.0 - avg_deviation * 0.3)`. -/
def symmetry_score_raw (ratios : List α) : α :=
  max 0 (1 - avg_deviation ratios * (3 / 10))

/-- The value returned by `compute_symmetry_score` once the ratios are known
(src/main.py lines 105-114): `round(max(0.0, 1.0 - avg_deviation * 0.3), 2)`. -/
def symmetry_score_of_ratios (ratios : List α) : α :=
  round2 (symmetry_score_raw ratios)

/-- `get_symmetry_level` (src/main.py lines 36-48), with the local variable
`score_percent = score * 100` inlined.  The source appends a decorative emoji
suffix to each label; the spec declares those suffixes cosmetic and not
semantically load-bearing, so we return the base labels. -/
def get_symmetry_level (score : α) : String :=
  if 90 ≤ score * 100 ∧ score * 100 ≤ 100 then "Divine Symmetry"
  else if 75 ≤ score * 100 ∧ score * 100 < 90 then "Elegant Harmony"
  else if 60 ≤ score * 100 ∧ score * 100 < 75 then "Refined Balance"
  else if 40 ≤ score * 100 ∧ score * 100 < 60 then "Natural Allure"
  else "Authentic Beauty"

end Scorer

end FacialSymmetry

namespace FacialSymmetry

/-- Model of Python's `str.startswith`, acting on the character list of the
string. -/
def startswith (s pre : String) : Bool := pre.data.isPrefixOf s.data

/-- A face's landmark set: for each landmark index, the normalized `(x, y)`
coordinates that MediaPipe reports (`results.multi_face_landmarks[0].landmark`).
The provider guarantees 468+ points; indices beyond those the code reads are
irrelevant, so a total function is a faithful model. -/
def Landmarks : Type := ℕ → ℝ × ℝ

noncomputable section Pipeline

/-- `calculate_distance` (src/main.py lines 32-34): Euclidean distance. -/
def calculate_distance (point1 point2 : ℝ × ℝ) : ℝ :=
  Real.sqrt ((point2.1 - point1.1) ^ 2 + (point2.2 - point1.2) ^ 2)

/-- src/main.py line 64: `(landmarks[33].x * image.width, landmarks[33].y * image.height)`. -/
def left_eye (lm : Landmarks) (width height : ℝ) : ℝ × ℝ :=
  ((lm 33).1 * width, (lm 33).2 * height)

/-- src/main.py line 65: landmark 263. -/
def right_eye (lm : Landmarks) (width height : ℝ) : ℝ × ℝ :=
  ((lm 263).1 * width, (lm 263).2 * height)

/-- src/main.py line 66: landmark 1. -/
def nose_tip (lm : Landmarks) (width height : ℝ) : ℝ × ℝ :=
  ((lm 1).1 * width, (lm 1).2 * height)

/-- src/main.py line 67: landmark 234. -/
def nose_left (lm : Landmarks) (width height : ℝ) : ℝ × ℝ :=
  ((lm 234).1 * width, (lm 234).2 * height)

/-- src/main.py line 68: landmark 454. -/
def nose_right (lm : Landmarks) (width height : ℝ) : ℝ × ℝ :=
  ((lm 454).1 * width, (lm 454).2 * height)

/-- src/main.py line 69: landmark 61. -/
def mouth_left (lm : Landmarks) (width height : ℝ) : ℝ × ℝ :=
  ((lm 61).1 * width, (lm 61).2 * height)

/-- src/main.py line 70: landmark 291. -/
def mouth_right (lm : Landmarks) (width height : ℝ) : ℝ × ℝ :=
  ((lm 291).1 * width, (lm 291).2 * height)

/-- src/main.py line 71: landmark 152. -/
def chin (lm : Landmarks) (width height : ℝ) : ℝ × ℝ :=
  ((lm 152).1 * width, (lm 152).2 * height)

/-- src/main.py line 72: landmark 10. -/
def forehead (lm : Landmarks) (width height : ℝ) : ℝ × ℝ :=
  ((lm 10).1 * width, (lm 10).2 * height)

/-- src/main.py line 73: landmark 234 again (aliases `nose_left`). -/
def left_face_edge (lm : Landmarks) (width height : ℝ) : ℝ × ℝ :=
  ((lm 234).1 * width, (lm 234).2 * height)

/-- src/main.py line 74: landmark 454 again (aliases `nose_right`). -/
def right_face_edge (lm : Landmarks) (width height : ℝ) : ℝ × ℝ :=
  ((lm 454).1 * width, (lm 454).2 * height)

/-- src/main.py line 77. -/
def eye_distance (lm : Landmarks) (width height : ℝ) : ℝ :=
  calculate_distance (left_eye lm width height) (right_eye lm width height)

/-- src/main.py line 78. -/
def nose_width (lm : Landmarks) (width height : ℝ) : ℝ :=
  calculate_distance (nose_left lm width height) (nose_right lm width height)

/-- src/main.py line 79. -/
def mouth_width (lm : Landmarks) (width height : ℝ) : ℝ :=
  calculate_distance (mouth_left lm width height) (mouth_right lm width height)

/-- src/main.py line 80. -/
def face_width (lm : Landmarks) (width height : ℝ) : ℝ :=
  calculate_distance (left_face_edge lm width height) (right_face_edge lm width height)

/-- src/main.py line 81. -/
def forehead_to_eyes (lm : Landmarks) (width height : ℝ) : ℝ :=
  calculate_distance (forehead lm width height) (left_eye lm width height)

/-- src/main.py line 82. -/
def eyes_to_chin (lm : Landmarks) (width height : ℝ) : ℝ :=
  calculate_distance (left_eye lm width height) (chin lm width height)

/-- src/main.py line 83. -/
def eye_to_nose (lm : Landmarks) (width height : ℝ) : ℝ :=
  calculate_distance (left_eye lm width height) (nose_tip lm width height)

/-- src/main.py line 84. -/
def nose_to_chin (lm : Landmarks) (width height : ℝ) : ℝ :=
  calculate_distance (nose_tip lm width height) (chin lm width height)

/-- `ratios` (src/main.py lines 92-97): each entry falls back to `1.0` when its
denominator is zero. -/
def ratios (lm : Landmarks) (width height : ℝ) : List ℝ :=
  [if eye_distance lm width height ≠ 0 then
      face_width lm width height / eye_distance lm width height else 1,
   if eyes_to_chin lm width height ≠ 0 then
      forehead_to_eyes lm width height / eyes_to_chin lm width height else 1,
   if mouth_width lm width height ≠ 0 then
      nose_width lm width height / mouth_width lm width height else 1,
   if nose_to_chin lm width height ≠ 0 then
      eye_to_nose lm width height / nose_to_chin lm width height else 1]

/-- The score `compute_symmetry_score` returns when a face was found
(src/main.py lines 61-114), as a function of the detected landmark set and the
image dimensions. -/
def symmetry_score_of_landmarks (lm : Landmarks) (width height : ℝ) : ℝ :=
  symmetry_score_of_ratios (ratios lm width height)

/-- An exception raised with `raise HTTPException(status_code=..., detail=...)`.
`fastapi.HTTPException` subclasses `starlette.exceptions.HTTPException`, which
subclasses `Exception` — so a bare `except Exception` catches it. -/
structure HTTPException where
  status_code : ℕ
  detail : String
  deriving DecidableEq

/-- Python's `str(e)` for a `starlette` `HTTPException`:
its `__str__` returns `f"{status_code}: {detail}"`. -/
def HTTPException.str (e : HTTPException) : String :=
  toString e.status_code ++ ": " ++ e.detail

/-- A decoded upload: the image dimensions together with what the Landmark
Provider (MediaPipe `face_mesh.process`) detects on it —
`results.multi_face_landmarks`, one landmark set per detected face. -/
structure Image where
  width : ℝ
  height : ℝ
  faces : List Landmarks

/-- `compute_symmetry_score` (src/main.py lines 50-114): raises
`HTTPException(400, "No face detected in the image")` when the provider finds
no face (`if not results.multi_face_landmarks`), otherwise scores the first
detected face.  Raising is modelled by `Except.error`. -/
def compute_symmetry_score (image : Image) : Except HTTPException ℝ :=
  match image.faces with
  | [] => .error { status_code := 400, detail := "No face detected in the image" }
  | lm :: _ => .ok (symmetry_score_of_landmarks lm image.width image.height)

/-- The JSON body of a successful `/analyze` response (src/main.py lines
137-144).  The `message` field is a fixed template instantiated with exactly
these two values; it carries no further information and is not modelled. -/
structure AnalyzeResponse where
  symmetry_score : ℝ
  symmetry_level : String

/-- An uploaded file as the handler sees it: its `content_type` header and the
outcome of `Image.open(io.BytesIO(contents)).convert("RGB")` — either a decoded
image or an exception message `str(e)`. -/
structure UploadFile where
  content_type : String
  decode : Except String Image

/-- `analyze_image` (src/main.py lines 122-146).  The content-type check sits
before the `try` block, so its 400 propagates; everything inside the `try` —
including the `HTTPException` deliberately raised by `compute_symmetry_score`,
since `HTTPException` subclasses `Exception` — is caught by
`except Exception as e` and re-raised as
`HTTPException(500, f"Error processing image: {str(e)}")`. -/
def analyze_image (file : UploadFile) : Except HTTPException AnalyzeResponse :=
  if ¬ startswith file.content_type "image/" then
    .error { status_code := 400, detail := "File must be an image" }
  else
    match file.decode with
    | .error msg =>
        .error { status_code := 500, detail := "Error processing image: " ++ msg }
    | .ok image =>
        match compute_symmetry_score image with
        | .error e =>
            .error { status_code := 500, detail := "Error processing image: " ++ e.str }
        | .ok score =>
            .ok { symmetry_score := score, symmetry_level := get_symmetry_level score }

end Pipeline

section RoundLemmas

variable {α : Type*} [LinearOrderedField α] [FloorRing α]

lemma roundHalfEven_intCast (n : ℤ) : roundHalfEven ((n : α)) = n := by
  unfold roundHalfEven
  rw [Int.floor_intCast]
  simp [sub_self]

lemma round2_eq_of_mul_hundred (q : α) (n : ℤ) (h : q * 100 = (n : α)) :
    round2 q = (n : α) / 100 := by
  rw [round2, h, roundHalfEven_intCast]

lemma floor_le_roundHalfEven (q : α) : ⌊q⌋ ≤ roundHalfEven q := by
  unfold roundHalfEven
  split_ifs <;> omega

lemma roundHalfEven_le_floor_add_one (q : α) : roundHalfEven q ≤ ⌊q⌋ + 1 := by
  unfold roundHalfEven
  split_ifs <;> omega

lemma le_roundHalfEven_of_le (n : ℤ) (q : α) (h : (n : α) ≤ q) :
    n ≤ roundHalfEven q :=
  le_trans (Int.le_floor.2 h) (floor_le_roundHalfEven q)

lemma roundHalfEven_le_of_le (n : ℤ) (q : α) (h : q ≤ (n : α)) :
    roundHalfEven q ≤ n := by
  have hf : ⌊q⌋ ≤ n := by
    have h1 := Int.floor_le_floor h
    rwa [Int.floor_intCast] at h1
  rcases lt_or_eq_of_le hf with hlt | heq
  · exact (roundHalfEven_le_floor_add_one q).trans (by omega)
  · have hq : q = (n : α) := by
      refine le_antisymm h ?_
      calc (n : α) = ((⌊q⌋ : ℤ) : α) := by rw [heq]
        _ ≤ q := Int.floor_le q
    rw [hq, roundHalfEven_intCast]

lemma round2_bounds (q : α) (a b : ℤ) (ha : (a : α) / 100 ≤ q) (hb : q ≤ (b : α) / 100) :
    (a : α) / 100 ≤ round2 q ∧ round2 q ≤ (b : α) / 100 := by
  have h100 : (0 : α) < 100 := by norm_num
  have h1 : (a : α) ≤ q * 100 := (div_le_iff h100).1 ha
  have h2 : q * 100 ≤ (b : α) := (le_div_iff h100).1 hb
  have hl : a ≤ roundHalfEven (q * 100) := le_roundHalfEven_of_le a _ h1
  have hu : roundHalfEven (q * 100) ≤ b := roundHalfEven_le_of_le b _ h2
  rw [round2]
  constructor
  · exact (div_le_div_right h100).2 (by exact_mod_cast hl)
  · exact (div_le_div_right h100).2 (by exact_mod_cast hu)

end RoundLemmas

section ScorerLemmas

variable {α : Type*} [LinearOrderedField α] [FloorRing α]

lemma goldenRatio_pos : (0 : α) < goldenRatio := by norm_num [goldenRatio]

lemma ratio_deviation_nonneg (r : α) : 0 ≤ ratio_deviation r :=
  le_min (div_nonneg (abs_nonneg _) goldenRatio_pos.le) zero_le_one

lemma ratio_deviation_le_one (r : α) : ratio_deviation r ≤ 1 :=
  min_le_right _ _

lemma ratio_deviation_eq_one_of_far (r : α) (h : goldenRatio ≤ |r - goldenRatio|) :
    ratio_deviation r = 1 := by
  rw [ratio_deviation, min_eq_right]
  rw [le_div_iff goldenRatio_pos, one_mul]
  exact h

lemma avg_deviation_four (a b c d : α) :
    avg_deviation [a, b, c, d] =
      (ratio_deviation a + ratio_deviation b + ratio_deviation c + ratio_deviation d) / 4 := by
  simp [avg_deviation]
  ring

lemma avg_deviation_four_nonneg (a b c d : α) : 0 ≤ avg_deviation [a, b, c, d] := by
  rw [avg_deviation_four]
  have ha := ratio_deviation_nonneg a
  have hb := ratio_deviation_nonneg b
  have hc := ratio_deviation_nonneg c
  have hd := ratio_deviation_nonneg d
  linarith

lemma avg_deviation_four_le_one (a b c d : α) : avg_deviation [a, b, c, d] ≤ 1 := by
  rw [avg_deviation_four]
  have ha := ratio_deviation_le_one a
  have hb := ratio_deviation_le_one b
  have hc := ratio_deviation_le_one c
  have hd := ratio_deviation_le_one d
  linarith

lemma symmetry_score_raw_four_eq (a b c d : α) :
    symmetry_score_raw [a, b, c, d] = 1 - avg_deviation [a, b, c, d] * (3 / 10) := by
  have h := avg_deviation_four_le_one a b c d
  rw [symmetry_score_raw]
  exact max_eq_right (by nlinarith)

lemma symmetry_score_raw_four_bounds (a b c d : α) :
    7 / 10 ≤ symmetry_score_raw [a, b, c, d] ∧ symmetry_score_raw [a, b, c, d] ≤ 1 := by
  rw [symmetry_score_raw_four_eq]
  have h1 := avg_deviation_four_nonneg a b c d
  have h2 := avg_deviation_four_le_one a b c d
  constructor <;> nlinarith

lemma symmetry_score_of_ratios_four_bounds (a b c d : α) :
    7 / 10 ≤ symmetry_score_of_ratios [a, b, c, d] ∧
      symmetry_score_of_ratios [a, b, c, d] ≤ 1 := by
  obtain ⟨h1, h2⟩ := symmetry_score_raw_four_bounds a b c d
  obtain ⟨hbl, hbu⟩ := round2_bounds (symmetry_score_raw [a, b, c, d]) 70 100
    (by push_cast; linarith) (by push_cast; linarith)
  have h70 : ((70 : ℤ) : α) / 100 = 7 / 10 := by norm_num
  have h100 : ((100 : ℤ) : α) / 100 = 1 := by norm_num
  rw [h70] at hbl
  rw [h100] at hbu
  rw [symmetry_score_of_ratios]
  exact ⟨hbl, hbu⟩

lemma get_symmetry_level_top_three (s : α) (h1 : 7 / 10 ≤ s) (h2 : s ≤ 1) :
    get_symmetry_level s = "Divine Symmetry" ∨
      get_symmetry_level s = "Elegant Harmony" ∨
      get_symmetry_level s = "Refined Balance" := by
  have hl : 70 ≤ s * 100 := by nlinarith
  have hu : s * 100 ≤ 100 := by nlinarith
  rw [get_symmetry_level]
  split_ifs with hA hB hC hD
  · exact Or.inl rfl
  · exact Or.inr (Or.inl rfl)
  · exact Or.inr (Or.inr rfl)
  · exfalso
    linarith [hD.2]
  · exfalso
    push_neg at hA hB hC
    rcases le_or_lt 90 (s * 100) with h90 | h90
    · linarith [hA h90]
    · rcases le_or_lt 75 (s * 100) with h75 | h75
      · linarith [hB h75]
      · linarith [hC (by linarith)]

end ScorerLemmas

section DegenerateInput

/-- A degenerate landmark set with every landmark at the origin: all eight
distances collapse to zero, exercising every division fallback at once. -/
noncomputable def lm0 : Landmarks := fun _ => (0, 0)

lemma calculate_distance_self (p : ℝ × ℝ) : calculate_distance p p = 0 := by
  simp [calculate_distance]

lemma eye_distance_lm0 : eye_distance lm0 1 1 = 0 := by
  simp [eye_distance, left_eye, right_eye, lm0, calculate_distance]

lemma eyes_to_chin_lm0 : eyes_to_chin lm0 1 1 = 0 := by
  simp [eyes_to_chin, left_eye, chin, lm0, calculate_distance]

lemma mouth_width_lm0 : mouth_width lm0 1 1 = 0 := by
  simp [mouth_width, mouth_left, mouth_right, lm0, calculate_distance]

lemma nose_to_chin_lm0 : nose_to_chin lm0 1 1 = 0 := by
  simp [nose_to_chin, nose_tip, chin, lm0, calculate_distance]

lemma ratios_lm0 : ratios lm0 1 1 = [1, 1, 1, 1] := by
  rw [ratios, eye_distance_lm0, eyes_to_chin_lm0, mouth_width_lm0, nose_to_chin_lm0]
  simp

end DegenerateInput

/-! Claim theorems. -/

/-- C1: the spec says an image-typed upload in which the provider detects no
face makes `POST /analyze` fail with HTTP 400 and detail
"No face detected in the image".  `compute_symmetry_score` does raise exactly
that `HTTPException(400, ...)` — but it does so inside the handler's `try`
block, and since `fastapi.HTTPException` subclasses `Exception`, the handler's
`except Exception as e` catches it and re-raises
`HTTPException(500, f"Error processing image: {str(e)}")`.  Evaluating the
handler at such an upload: the deliberate 400 is swallowed and a 500 is
surfaced instead. -/
theorem analyze_no_face_returns_500 :
    compute_symmetry_score { width := 1, height := 1, faces := [] } =
      .error { status_code := 400, detail := "No face detected in the image" } ∧
    analyze_image { content_type := "image/png",
                    decode := .ok { width := 1, height := 1, faces := [] } } =
      .error { status_code := 500,
               detail := "Error processing image: 400: No face detected in the image" } :=
  ⟨rfl, rfl⟩

/-- C2: for every list of 4 ratio values, the returned symmetry score equals
`max(0.0, 1.0 − mean(deviations) × 0.3)` rounded to 2 decimal places, where the
deviations are those of the 4 ratios, and the score lies in `[0, 1]`. -/
theorem symmetry_score_formula_and_range (a b c d : ℝ) :
    symmetry_score_of_ratios [a, b, c, d] =
      round2 (max 0 (1 -
        ((min (|a - 1.618| / 1.618) 1 + min (|b - 1.618| / 1.618) 1 +
          min (|c - 1.618| / 1.618) 1 + min (|d - 1.618| / 1.618) 1) / 4) * 0.3)) ∧
    0 ≤ symmetry_score_of_ratios [a, b, c, d] ∧
      symmetry_score_of_ratios [a, b, c, d] ≤ 1 := by
  refine ⟨?_, ?_, (symmetry_score_of_ratios_four_bounds a b c d).2⟩
  · rw [symmetry_score_of_ratios, symmetry_score_raw, avg_deviation_four]
    congr 1
    norm_num [ratio_deviation, goldenRatio]
  · have h := (symmetry_score_of_ratios_four_bounds a b c d).1
    linarith

/-- C3: the level classifier, applied to `score × 100`, returns (up to the
decorative suffix) "Divine Symmetry" on `[90, 100]`, "Elegant Harmony" on
`[75, 90)`, "Refined Balance" on `[60, 75)`, "Natural Allure" on `[40, 60)`,
and "Authentic Beauty" on `[0, 40)`; in particular `score% = 90.0` yields
"Divine Symmetry", `89.999` yields "Elegant Harmony", `40.0` yields
"Natural Allure", and `39.999` yields "Authentic Beauty". -/
theorem symmetry_level_band_classification :
    (∀ s : ℝ, 90 ≤ s * 100 → s * 100 ≤ 100 → get_symmetry_level s = "Divine Symmetry") ∧
    (∀ s : ℝ, 75 ≤ s * 100 → s * 100 < 90 → get_symmetry_level s = "Elegant Harmony") ∧
    (∀ s : ℝ, 60 ≤ s * 100 → s * 100 < 75 → get_symmetry_level s = "Refined Balance") ∧
    (∀ s : ℝ, 40 ≤ s * 100 → s * 100 < 60 → get_symmetry_level s = "Natural Allure") ∧
    (∀ s : ℝ, 0 ≤ s * 100 → s * 100 < 40 → get_symmetry_level s = "Authentic Beauty") ∧
    get_symmetry_level (0.9 : ℝ) = "Divine Symmetry" ∧
    get_symmetry_level (0.89999 : ℝ) = "Elegant Harmony" ∧
    get_symmetry_level (0.4 : ℝ) = "Natural Allure" ∧
    get_symmetry_level (0.39999 : ℝ) = "Authentic Beauty" := by
  refine ⟨fun s h1 h2 => ?_, fun s h1 h2 => ?_, fun s h1 h2 => ?_,
    fun s h1 h2 => ?_, fun s h1 h2 => ?_, ?_, ?_, ?_, ?_⟩
  · rw [get_symmetry_level, if_pos ⟨h1, h2⟩]
  · rw [get_symmetry_level, if_neg (by rintro ⟨h90, -⟩; linarith),
      if_pos ⟨h1, h2⟩]
  · rw [get_symmetry_level, if_neg (by rintro ⟨h90, -⟩; linarith),
      if_neg (by rintro ⟨h75, -⟩; linarith), if_pos ⟨h1, h2⟩]
  · rw [get_symmetry_level, if_neg (by rintro ⟨h90, -⟩; linarith),
      if_neg (by rintro ⟨h75, -⟩; linarith),
      if_neg (by rintro ⟨h60, -⟩; linarith), if_pos ⟨h1, h2⟩]
  · rw [get_symmetry_level, if_neg (by rintro ⟨h90, -⟩; linarith),
      if_neg (by rintro ⟨h75, -⟩; linarith),
      if_neg (by rintro ⟨h60, -⟩; linarith),
      if_neg (by rintro ⟨h40, -⟩; linarith)]
  · norm_num [get_symmetry_level]
  · norm_num [get_symmetry_level]
  · norm_num [get_symmetry_level]
  · norm_num [get_symmetry_level]

/-- Witness for C3: the Divine band theorem applied at the concrete score 0.95. -/
theorem symmetry_level_band_classification_witness :
    get_symmetry_level (0.95 : ℝ) = "Divine Symmetry" :=
  symmetry_level_band_classification.1 0.95 (by norm_num) (by norm_num)

/-- C4: ratio computation never fails on a zero denominator — each of the four
ratios whose denominator distance is exactly 0 resolves to 1.0.  (The embedded
`ratios` is total by construction, mirroring the source's conditional
expressions, so "never raises" holds by the fallback equations below.) -/
theorem zero_denominator_ratio_fallback (lm : Landmarks) (width height : ℝ) :
    (eye_distance lm width height = 0 → (ratios lm width height)[0]? = some 1) ∧
    (eyes_to_chin lm width height = 0 → (ratios lm width height)[1]? = some 1) ∧
    (mouth_width lm width height = 0 → (ratios lm width height)[2]? = some 1) ∧
    (nose_to_chin lm width height = 0 → (ratios lm width height)[3]? = some 1) := by
  refine ⟨fun h => ?_, fun h => ?_, fun h => ?_, fun h => ?_⟩ <;> simp [ratios, h]

/-- Witness for C4: a landmark set with all points collapsed to the origin has
`eye_distance = 0`, and its first ratio is 1. -/
theorem zero_denominator_ratio_fallback_witness :
    eye_distance lm0 1 1 = 0 ∧ (ratios lm0 1 1)[0]? = some 1 :=
  ⟨eye_distance_lm0, (zero_denominator_ratio_fallback lm0 1 1).1 eye_distance_lm0⟩

/-- C5: for every ratio value `r`, the computed per-ratio deviation equals
`min(|r − 1.618| / 1.618, 1.0)` and lies in `[0, 1]`; consequently each of the
4 ratios of any landmark set has its deviation in `[0, 1]`. -/
theorem ratio_deviation_spec_and_range :
    (∀ r : ℝ, ratio_deviation r = min (|r - 1.618| / 1.618) 1 ∧
      0 ≤ ratio_deviation r ∧ ratio_deviation r ≤ 1) ∧
    (∀ (lm : Landmarks) (width height : ℝ),
      ∀ d ∈ (ratios lm width height).map ratio_deviation, 0 ≤ d ∧ d ≤ 1) := by
  constructor
  · intro r
    refine ⟨?_, ratio_deviation_nonneg r, ratio_deviation_le_one r⟩
    norm_num [ratio_deviation, goldenRatio]
  · intro lm width height d hd
    rw [List.mem_map] at hd
    obtain ⟨r, -, rfl⟩ := hd
    exact ⟨ratio_deviation_nonneg r, ratio_deviation_le_one r⟩

/-- Witness for C5: the deviation of the ratio 1 produced by the degenerate
landmark set is in `[0, 1]`. -/
theorem ratio_deviation_spec_and_range_witness :
    0 ≤ ratio_deviation (1 : ℝ) ∧ ratio_deviation (1 : ℝ) ≤ 1 :=
  ratio_deviation_spec_and_range.2 lm0 1 1 (ratio_deviation 1)
    (by rw [ratios_lm0]; exact List.mem_map_of_mem _ (by simp))

/-- C6: whenever all 4 ratios differ from 1.618 by at least 1.618 (every
deviation fully clamped to 1.0), the symmetry score is 0.70 and the label is
"Refined Balance". -/
theorem full_clamp_yields_refined_balance (a b c d : ℝ)
    (ha : 1.618 ≤ |a - 1.618|) (hb : 1.618 ≤ |b - 1.618|)
    (hc : 1.618 ≤ |c - 1.618|) (hd : 1.618 ≤ |d - 1.618|) :
    symmetry_score_of_ratios [a, b, c, d] = 0.70 ∧
    get_symmetry_level (symmetry_score_of_ratios [a, b, c, d]) = "Refined Balance" := by
  have hg : (goldenRatio : ℝ) = 1.618 := by norm_num [goldenRatio]
  have da : ratio_deviation a = 1 := ratio_deviation_eq_one_of_far a (by rw [hg]; exact ha)
  have db : ratio_deviation b = 1 := ratio_deviation_eq_one_of_far b (by rw [hg]; exact hb)
  have dc : ratio_deviation c = 1 := ratio_deviation_eq_one_of_far c (by rw [hg]; exact hc)
  have dd : ratio_deviation d = 1 := ratio_deviation_eq_one_of_far d (by rw [hg]; exact hd)
  have havg : avg_deviation [a, b, c, d] = 1 := by
    rw [avg_deviation_four, da, db, dc, dd]
    norm_num
  have hraw : symmetry_score_raw [a, b, c, d] = 7 / 10 := by
    rw [symmetry_score_raw_four_eq, havg]
    norm_num
  have hs : symmetry_score_of_ratios [a, b, c, d] = 7 / 10 := by
    rw [symmetry_score_of_ratios, hraw,
      round2_eq_of_mul_hundred (7 / 10 : ℝ) 70 (by norm_num)]
    norm_num
  constructor
  · rw [hs]
    norm_num
  · rw [hs]
    norm_num [get_symmetry_level]

/-- Witness for C6: all four ratios equal to 0 (each at distance exactly 1.618
from the golden ratio). -/
theorem full_clamp_yields_refined_balance_witness :
    symmetry_score_of_ratios ([0, 0, 0, 0] : List ℝ) = 0.70 ∧
    get_symmetry_level (symmetry_score_of_ratios ([0, 0, 0, 0] : List ℝ)) =
      "Refined Balance" :=
  full_clamp_yields_refined_balance 0 0 0 0
    (by rw [zero_sub, abs_neg, abs_of_pos] <;> norm_num)
    (by rw [zero_sub, abs_neg, abs_of_pos] <;> norm_num)
    (by rw [zero_sub, abs_neg, abs_of_pos] <;> norm_num)
    (by rw [zero_sub, abs_neg, abs_of_pos] <;> norm_num)

/-- C7: an upload whose content-type does not start with "image/" makes
`POST /analyze` fail with HTTP 400 and detail "File must be an image" (the
check precedes the `try` block, so this 400 propagates to the caller). -/
theorem non_image_upload_rejected (file : UploadFile)
    (h : startswith file.content_type "image/" = false) :
    analyze_image file =
      .error { status_code := 400, detail := "File must be an image" } := by
  rw [analyze_image, if_pos (by simp [h])]

/-- Witness for C7: a "text/plain" upload is rejected with the 400. -/
theorem non_image_upload_rejected_witness :
    analyze_image { content_type := "text/plain",
                    decode := .error "cannot identify image file" } =
      .error { status_code := 400, detail := "File must be an image" } :=
  non_image_upload_rejected
    { content_type := "text/plain", decode := .error "cannot identify image file" }
    (by decide)

/-- C8: the scoring pipeline is deterministic — it is a pure function of the
landmark coordinates and the image width/height, so two runs on identical
inputs produce identical numeric output (floating-point values are modelled as
exact reals). -/
theorem scoring_pipeline_deterministic (lm1 lm2 : Landmarks) (w1 h1 w2 h2 : ℝ)
    (hlm : lm1 = lm2) (hw : w1 = w2) (hh : h1 = h2) :
    symmetry_score_of_landmarks lm1 w1 h1 = symmetry_score_of_landmarks lm2 w2 h2 ∧
    ∀ image : Image, compute_symmetry_score image = compute_symmetry_score image := by
  subst hlm
  subst hw
  subst hh
  exact ⟨rfl, fun _ => rfl⟩

/-- Witness for C8: two runs on the degenerate landmark set agree. -/
theorem scoring_pipeline_deterministic_witness :
    symmetry_score_of_landmarks lm0 1 1 = symmetry_score_of_landmarks lm0 1 1 :=
  (scoring_pipeline_deterministic lm0 lm0 1 1 1 1 rfl rfl rfl).1

/-- C9: for every landmark set the unrounded symmetry score lies in
`[0.7, 1.0]`, the `max(0.0, ·)` clamp never changes the value, and the label
produced by the pipeline is always one of "Divine Symmetry",
"Elegant Harmony", or "Refined Balance". -/
theorem pipeline_score_and_label_range (lm : Landmarks) (width height : ℝ) :
    0.7 ≤ symmetry_score_raw (ratios lm width height) ∧
    symmetry_score_raw (ratios lm width height) ≤ 1 ∧
    symmetry_score_raw (ratios lm width height) =
      1 - avg_deviation (ratios lm width height) * 0.3 ∧
    (get_symmetry_level (symmetry_score_of_landmarks lm width height) = "Divine Symmetry" ∨
     get_symmetry_level (symmetry_score_of_landmarks lm width height) = "Elegant Harmony" ∨
     get_symmetry_level (symmetry_score_of_landmarks lm width height) = "Refined Balance") := by
  obtain ⟨r1, r2, r3, r4, hr⟩ : ∃ a b c d, ratios lm width height = [a, b, c, d] :=
    ⟨_, _, _, _, rfl⟩
  have h07 : (0.7 : ℝ) = 7 / 10 := by norm_num
  have h03 : (0.3 : ℝ) = 3 / 10 := by norm_num
  refine ⟨?_, ?_, ?_, ?_⟩
  · rw [h07, hr]
    exact (symmetry_score_raw_four_bounds r1 r2 r3 r4).1
  · rw [hr]
    exact (symmetry_score_raw_four_bounds r1 r2 r3 r4).2
  · rw [h03, hr]
    exact symmetry_score_raw_four_eq r1 r2 r3 r4
  · rw [symmetry_score_of_landmarks, hr]
    exact get_symmetry_level_top_three _
      (symmetry_score_of_ratios_four_bounds r1 r2 r3 r4).1
      (symmetry_score_of_ratios_four_bounds r1 r2 r3 r4).2

/-- C10: `left_face_edge`/`right_face_edge` read the same landmarks (234, 454)
as `nose_left`/`nose_right`, so `face_width` always equals `nose_width` and the
first ratio `face_width / eye_distance` equals `nose_width / eye_distance`. -/
theorem face_width_aliases_nose_width (lm : Landmarks) (width height : ℝ) :
    face_width lm width height = nose_width lm width height ∧
    face_width lm width height / eye_distance lm width height =
      nose_width lm width height / eye_distance lm width height :=
  ⟨rfl, rfl⟩

end FacialSymmetry

